import Mathlib

/-!
Verification of the MatSense sensor-processing pipeline against its
natural-language specification.  Each definition below is a shallow
embedding of a function of the Python source (file and symbol named in
its doc comment); theorems at the end settle the spec claims.

Machine floats of the source are modelled by rationals; Real-valued
transcendental windows (FFT kernels) by noncomputable real functions.
Python exceptions (IndexError, ValueError, ZeroDivisionError, KeyError)
are modelled by Option, with none meaning "the call raises".
-/

namespace MatSense

/-! ## C1: secure serial protocol, `DataSetterSerial.put_frame_secure`
(src/matsense/serverkit/data_setter.py) -/

/-- Constants of the framing protocol (class attributes of DataSetterSerial). -/
def HEAD : ℕ := 0x5B

def TAIL : ℕ := 0x5D

def ESCAPE : ℕ := 0x5C

def ESCAPE_ESCAPE : ℕ := 0x00

def ESCAPE_HEAD : ℕ := 0x01

def ESCAPE_TAIL : ℕ := 0x02

/-- `self.frame_size = (self.total + 12) if self.imu else self.total`
(DataSetterSerial.__init__). -/
def frame_size (total : ℕ) (imu : Bool) : ℕ :=
  if imu then total + 12 else total

/-- The state machine of `put_frame_secure`, reading the byte stream one
byte at a time.  Arguments: expected frame size, remaining stream, the
`begin` flag, the decoded `frame` buffer.  Returns the decoded frame on a
well-sized TAIL, `none` when the stream ends before a frame completes
(the Python loop would keep blocking on `read_byte`). -/
def secure_decode (fs : ℕ) : List ℕ → Bool → List ℕ → Option (List ℕ)
  | [], _, _ => none
  | recv :: rest, true, frame =>
    if recv = ESCAPE then
      match rest with
      | [] => none
      | e :: rest2 =>
        if e = ESCAPE_ESCAPE then secure_decode fs rest2 true (frame ++ [ESCAPE])
        else if e = ESCAPE_HEAD then secure_decode fs rest2 true (frame ++ [HEAD])
        else if e = ESCAPE_TAIL then secure_decode fs rest2 true (frame ++ [TAIL])
        else
          -- "Wrong ESCAPE byte" is logged; nothing is appended
          secure_decode fs rest2 true frame
    else if recv = TAIL then
      if frame.length ≠ fs then
        -- "Wrong frame size" is logged, the frame is discarded and
        -- decoding restarts waiting for the next HEAD
        secure_decode fs rest false []
      else some frame
    else secure_decode fs rest true (frame ++ [recv])
  | recv :: rest, false, frame =>
    if recv = HEAD then secure_decode fs rest true frame
    else secure_decode fs rest false frame
  termination_by s _ _ => s.length
  decreasing_by all_goals simp_arith

/-- `put_frame_secure`: the bytes copied into `data_pressure` are the
first `total` bytes of the decoded frame (`data_pressure[:pos] = frame[:pos]`). -/
def put_frame_secure (total : ℕ) (imu : Bool) (stream : List ℕ) : Option (List ℕ) :=
  (secure_decode (frame_size total imu) stream false []).map (List.take total)

/-! ## C4: record-mode flag, `Proc.run` / `Proc.post_action`
(src/matsense/serverkit/proc.py) and FLAG (src/matsense/serverkit/flag.py) -/

def FLAG_RUN : ℕ := 0

def FLAG_STOP : ℕ := 1

def FLAG_RESTART : ℕ := 2

def FLAG_REC_STOP : ℕ := 3

def FLAG_REC_DATA : ℕ := 4

def FLAG_REC_RAW : ℕ := 5

def FLAG_REC_RET_SUCCESS : ℕ := 7

def FLAG_REC_RET_FAIL : ℕ := 9

/-- The `record_raw` flag after `Proc.run` handles a control message with
the given flag, translated verbatim from
`if flag in (FLAG.FLAG_REC_DATA, FLAG.FLAG_REC_RAW):`
`    self.record_raw = True if flag == FLAG.FLAG_REC_RAW else True`. -/
def proc_record_raw_after (flag : ℕ) (record_raw : Bool) : Bool :=
  if flag = FLAG_REC_DATA ∨ flag = FLAG_REC_RAW then
    (if flag = FLAG_REC_RAW then true else true)
  else record_raw

/-- The two shared buffers a recorded line can be written from. -/
inductive RecBuffer where
  | data_raw : RecBuffer
  | data_out : RecBuffer
deriving DecidableEq

/-- Buffer selection in `Proc.post_action`:
`data_ptr = self.data_raw if self.record_raw else self.data_out`. -/
def post_action_buffer (record_raw : Bool) : RecBuffer :=
  if record_raw then RecBuffer.data_raw else RecBuffer.data_out

/-! ## C5: one reply per request, `Userver.run_service`
(src/matsense/serverkit/userver.py) and CMD (src/matsense/cmd.py) -/

def CMD_CLOSE : ℕ := 0

def CMD_DATA : ℕ := 1

def CMD_RAW : ℕ := 2

def CMD_REC_DATA : ℕ := 3

def CMD_REC_RAW : ℕ := 4

def CMD_REC_STOP : ℕ := 5

def CMD_RESTART : ℕ := 6

def CMD_CONFIG : ℕ := 7

def CMD_DATA_IMU : ℕ := 9

def CMD_RESTART_FILE : ℕ := 10

/-- The reply datagrams `run_service` can send for one request. -/
inductive SvcReply where
  | byte0 : SvcReply          -- pack("=B", 0)
  | frame_out : SvcReply      -- processed frame + frame index
  | frame_raw : SvcReply      -- raw frame + frame index
  | rec_ok : SvcReply         -- pack("=B", 0) + filename
  | rec_fail : SvcReply       -- pack("=B", 255)
  | restart_ok : SvcReply     -- pack("=B", 0) + YAML of new config
  | restart_fail : SvcReply   -- pack("=B", 255) + YAML of previous config
  | config_dump : SvcReply    -- pack("=B", 0) + YAML of current config
  | frame_imu : SvcReply      -- 6 doubles + frame index
deriving DecidableEq

/-- Environment facts that decide which reply body a branch builds (the
record acknowledgement received on the pipe, and whether the RESTART /
RESTART_FILE configuration loading succeeds). -/
structure SvcEnv where
  rec_ack_ok : Bool
  restart_ok : Bool
  restart_file_ok : Bool

/-- The sequence of reply datagrams `run_service` sends for one received
request whose leading byte is `cmd`, following the if/elif dispatch chain
of the source.  A byte matching no branch sends nothing. -/
def run_service_replies (env : SvcEnv) (cmd : ℕ) : List SvcReply :=
  if cmd = CMD_CLOSE then [SvcReply.byte0]
  else if cmd = CMD_DATA then [SvcReply.frame_out]
  else if cmd = CMD_RAW then [SvcReply.frame_raw]
  else if cmd = CMD_REC_DATA ∨ cmd = CMD_REC_RAW then
    [if env.rec_ack_ok then SvcReply.rec_ok else SvcReply.rec_fail]
  else if cmd = CMD_REC_STOP then [SvcReply.byte0]
  else if cmd = CMD_RESTART then
    [if env.restart_ok then SvcReply.restart_ok else SvcReply.restart_fail]
  else if cmd = CMD_RESTART_FILE then
    [if env.restart_file_ok then SvcReply.restart_ok else SvcReply.restart_fail]
  else if cmd = CMD_CONFIG then [SvcReply.config_dump]
  else if cmd = CMD_DATA_IMU then [SvcReply.frame_imu]
  else []

/-- The command codes defined by the CMD enum. -/
def defined_cmds : List ℕ :=
  [CMD_CLOSE, CMD_DATA, CMD_RAW, CMD_REC_DATA, CMD_REC_RAW, CMD_REC_STOP,
   CMD_RESTART, CMD_CONFIG, CMD_DATA_IMU, CMD_RESTART_FILE]

/-! ## C8: interpolation, `Interpolator.interpolate`
(src/matsense/process/interpolator.py) -/

/-- The Python value shapes compared by `ratio == 1` in `interpolate`:
the ratio list of two floats on the left, the int literal on the right. -/
inductive PyVal where
  | pint (n : ℤ) : PyVal
  | pfloat (q : ℚ) : PyVal
  | pfloatList (l : List ℚ) : PyVal

/-- Python `==` on these shapes: ints and floats compare numerically,
lists compare elementwise with lists, and a list never equals a number. -/
def pyEq : PyVal → PyVal → Bool
  | PyVal.pint a, PyVal.pint b => a == b
  | PyVal.pint a, PyVal.pfloat q => ((a : ℚ) == q)
  | PyVal.pfloat q, PyVal.pint a => (q == (a : ℚ))
  | PyVal.pfloat a, PyVal.pfloat b => a == b
  | PyVal.pfloatList a, PyVal.pfloatList b => a == b
  | _, _ => false

/-- What `interpolate` returns: the argument object itself (the
`return data` branch), or the preallocated `self.output` buffer filled by
`ndimage.zoom` (the `return self.output` branch). -/
inductive InterpResult (α : Type) where
  | original (data : α) : InterpResult α
  | zoomed (order : ℕ) : InterpResult α
deriving DecidableEq

/-- `Interpolator.interpolate`: computes
`ratio = [self.n[0]/shape[0], self.n[1]/shape[1]]` and tests
`if ratio == 1` (a Python list compared with an int). -/
def interpolate {α : Type} (n : ℕ × ℕ) (order : ℕ) (shape : ℕ × ℕ) (data : α) :
    InterpResult α :=
  let ratio : List ℚ := [(n.1 : ℚ) / (shape.1 : ℚ), (n.2 : ℚ) / (shape.2 : ℚ)]
  if pyEq (PyVal.pfloatList ratio) (PyVal.pint 1) then InterpResult.original data
  else InterpResult.zoomed order

/-! ## C2: calibration, `DataHandlerPressure.calibrate`
(src/matsense/process/data_handler.py) -/

/-- `getNextIndex(idx, size) = (idx+1) if idx != (size-1) else 0`.
The size is an integer because Python evaluates `size - 1` as `-1`
when `size == 0`. -/
def getNextIndex (idx : ℕ) (size : ℤ) : ℕ :=
  if (idx : ℤ) ≠ size - 1 then idx + 1 else 0

/-- `collections.deque(maxlen=m).append`: drops elements from the left
when the capacity is exceeded. -/
def deque_append {α : Type} (maxlen : ℕ) (l : List α) (x : α) : List α :=
  let grown := l ++ [x]
  grown.drop (grown.length - maxlen)

/-- The processing parameters `calibrate` reads
(`my_INIT_CALI_FRAMES`, `my_WIN_SIZE`, `my_WIN_BUFFER_SIZE`,
`my_CALI_THRESHOLD`; the first is an integer so that the `<= 0` guard is
faithful for negative configuration values). -/
structure CaliParams where
  INIT_CALI_FRAMES : ℤ
  WIN_SIZE : ℕ
  WIN_BUFFER_SIZE : ℕ
  CALI_THRESHOLD : ℚ

/-- The calibration state of DataHandlerPressure: the zero baseline, the
rolling window with its head index, and the admission buffer with its
clean flag. -/
structure CaliState (total : ℕ) where
  data_zero : Fin total → ℚ
  data_win : List (Fin total → ℚ)
  win_frame_idx : ℕ
  data_win_buffer : List (Fin total → ℚ)
  need_to_clean_buffer : Bool

/-- `DataHandlerPressure.calibrate`, acting on the post-filter frame
`data_tmp`.  Returns the new state and the calibrated output frame;
`none` models the IndexError of `popleft` on an empty deque or of an
out-of-range `data_win` row index. -/
def calibrate {total : ℕ} (p : CaliParams) (s : CaliState total)
    (data_tmp : Fin total → ℚ) : Option (CaliState total × (Fin total → ℚ)) :=
  if p.INIT_CALI_FRAMES ≤ 0 then some (s, data_tmp)
  else
    let stored := data_tmp
    -- self.data_tmp -= self.data_zero; self.data_tmp[self.data_tmp < 0] = 0
    let out : Fin total → ℚ := fun i =>
      if data_tmp i - s.data_zero i < 0 then 0 else data_tmp i - s.data_zero i
    if 0 < p.WIN_SIZE then
      -- the per-cell loop: any delta over the threshold marks the frame hot,
      -- clears the buffer when it is full, raises the clean flag and breaks
      if ∃ i, stored i - s.data_zero i > p.CALI_THRESHOLD then
        let buf :=
          if s.data_win_buffer.length = p.WIN_BUFFER_SIZE then []
          else s.data_win_buffer
        some ({ s with data_win_buffer := buf, need_to_clean_buffer := true }, out)
      else
        if s.data_win_buffer.length < p.WIN_BUFFER_SIZE then
          some ({ s with
            data_win_buffer := deque_append p.WIN_BUFFER_SIZE s.data_win_buffer stored }, out)
        else if s.need_to_clean_buffer then
          some ({ s with
            data_win_buffer := deque_append p.WIN_BUFFER_SIZE [] stored,
            need_to_clean_buffer := false }, out)
        else
          match s.data_win_buffer with
          | [] => none
          | cur_data :: buf_rest =>
            match s.data_win.get? s.win_frame_idx with
            | none => none
            | some win_row =>
              some ({ s with
                data_win_buffer := deque_append p.WIN_BUFFER_SIZE buf_rest stored,
                data_zero := fun i =>
                  s.data_zero i + (cur_data i - win_row i) / (p.WIN_SIZE : ℚ),
                data_win := s.data_win.set s.win_frame_idx cur_data,
                win_frame_idx := getNextIndex s.win_frame_idx (p.WIN_SIZE : ℤ) }, out)
    else some (s, out)

/-! ## C7: temporal filter, `DataHandlerPressure.temporal_filter` and
`prepare_temporal` (src/matsense/process/data_handler.py) -/

/-- The temporal filter variants of the FILTER_TEMPORAL enum. -/
inductive TemporalKind where
  | none_filter : TemporalKind
  | ma : TemporalKind
  | rw : TemporalKind
deriving DecidableEq

/-- Frames cached by `prepare_temporal` before the main loop starts:
`self.need_cache = self.my_LP_SIZE - 1`. -/
def need_cache (LP_SIZE : ℕ) : ℕ := LP_SIZE - 1

/-- The moving-average kernel: `self.kernel_lp[:] = 1 / self.my_LP_SIZE`. -/
def kernel_MA (LP_SIZE : ℕ) : List ℚ :=
  List.replicate LP_SIZE (1 / (LP_SIZE : ℚ))

/-- One unnormalized tap of the windowed-sinc kernel:
`sin(2*pi*w*shifted)/shifted` with `shifted = t - (L-1)/2`, and the
`shifted == 0` limit evaluated as `2*pi*w`. -/
noncomputable def rw_tap (LP_SIZE : ℕ) (w : ℝ) (t : ℕ) : ℝ :=
  let shifted : ℝ := (t : ℝ) - ((LP_SIZE : ℝ) - 1) / 2
  if shifted = 0 then 2 * Real.pi * w
  else Real.sin (2 * Real.pi * w * shifted) / shifted

/-- The windowed-sinc (rectangular window) kernel of `prepare_temporal`,
normalized by the sum of its taps. -/
noncomputable def kernel_RW (LP_SIZE : ℕ) (w : ℝ) : List ℝ :=
  let taps := (List.range LP_SIZE).map (rw_tap LP_SIZE w)
  let sum_all := taps.sum
  taps.map (fun x => x / sum_all)

/-- The convolution loop of `temporal_filter`:
`for t in range(1, L): data_tmp += data_filter[idx] * kernel[t]; idx = next`.
Returns the accumulated frame and the advanced index; `none` models an
IndexError on `data_filter` or `kernel_lp`. -/
def temporal_conv {α : Type} [Field α] {total : ℕ} (LP_SIZE : ℕ) (kernel : List α)
    (data_filter : List (Fin total → α)) :
    ℕ → ℕ → (Fin total → α) → Option (ℕ × (Fin total → α))
  | t, idx, acc =>
    if _h : t < LP_SIZE then
      match data_filter.get? idx, kernel.get? t with
      | some row, some k =>
        temporal_conv LP_SIZE kernel data_filter (t + 1)
          (getNextIndex idx ((LP_SIZE : ℤ) - 1)) (fun i => acc i + row i * k)
      | _, _ => none
    else some (idx, acc)
  termination_by t _ _ => LP_SIZE - t
  decreasing_by simp_wf; omega

/-- `DataHandlerPressure.temporal_filter`.  State: the ring buffer
`data_filter` (rows of length `total`) and `filter_frame_idx`.  Returns
the new ring buffer, the new index and the filtered frame; `none` models
the IndexError of `self.data_filter[self.filter_frame_idx] = stored`
when the index is outside the buffer. -/
def temporal_filter {α : Type} [Field α] {total : ℕ} (kind : TemporalKind)
    (LP_SIZE : ℕ) (kernel : List α) (data_filter : List (Fin total → α))
    (filter_frame_idx : ℕ) (data_tmp : Fin total → α) :
    Option (List (Fin total → α) × ℕ × (Fin total → α)) :=
  if kind = TemporalKind.none_filter then
    some (data_filter, filter_frame_idx, data_tmp)
  else
    let stored := data_tmp
    match kernel.get? 0 with
    | none => none
    | some k0 =>
      match temporal_conv LP_SIZE kernel data_filter 1 filter_frame_idx
        (fun i => data_tmp i * k0) with
      | none => none
      | some (idx, acc) =>
        if idx < data_filter.length then
          some (data_filter.set idx stored,
                getNextIndex idx ((LP_SIZE : ℤ) - 1), acc)
        else none

/-! ## C3: configuration round trip, `parse_ip_port` / `dump_ip_port` /
`check_config` / `dump_config` (src/matsense/tools.py).
Strings are modelled as lists of characters. -/

/-- Big-endian decimal digits of a natural number (the digits Python's
`str` prints). -/
def nat_to_digits (n : ℕ) : List ℕ :=
  if _h : n < 10 then [n] else nat_to_digits (n / 10) ++ [n % 10]
  termination_by n
  decreasing_by exact Nat.div_lt_self (by omega) (by omega)

/-- The value of a big-endian decimal digit list. -/
def digits_to_nat (l : List ℕ) : ℕ :=
  l.foldl (fun a d => a * 10 + d) 0

/-- The character of a decimal digit. -/
def digit_char (d : ℕ) : Char := Char.ofNat (48 + d)

/-- Python `str` on a non-negative integer. -/
def py_str_nat (n : ℕ) : List Char := (nat_to_digits n).map digit_char

/-- Python `str` on an integer. -/
def py_str_int (n : ℤ) : List Char :=
  if n < 0 then '-' :: py_str_nat n.natAbs else py_str_nat n.toNat

/-- Python `str` on an int-or-None value, as `dump_ip_port` applies it to
the port: `str(None)` is the four characters `None`. -/
def py_str_opt_int : Option ℤ → List Char
  | none => ['N', 'o', 'n', 'e']
  | some n => py_str_int n

/-- A maximal run of decimal digits read by Python `int`; `none` when the
run is empty or a non-digit remains (ValueError).  Leading/trailing
whitespace and underscore separators accepted by `int` are not modelled:
they never occur in the round trip. -/
def py_digits (l : List Char) : Option ℕ :=
  if l ≠ [] ∧ l.all Char.isDigit then
    some (digits_to_nat (l.map (fun c => c.toNat - 48)))
  else none

/-- Python `int(string)`: optional sign then decimal digits, ValueError
(`none`) otherwise. -/
def py_int (l : List Char) : Option ℤ :=
  if l.headD ' ' = '-' then (py_digits l.tail).map (fun n => -(n : ℤ))
  else if l.headD ' ' = '+' then (py_digits l.tail).map (fun n => (n : ℤ))
  else (py_digits l).map (fun n => (n : ℤ))

/-- Python `content.split(":")`. -/
def split_colon : List Char → List (List Char)
  | [] => [[]]
  | c :: rest =>
    if c = ':' then [] :: split_colon rest
    else
      match split_colon rest with
      | [] => [[c]]
      | g :: gs => (c :: g) :: gs

/-- `parse_ip_port`: split on `:`, keep the first part as the host and
convert the second (when present) with `int`; `none` models the
ValueError escaping the caller. -/
def parse_ip_port (content : List Char) : Option (List Char × Option ℤ) :=
  let paras := split_colon content
  let ip := paras.headD []
  match paras.get? 1 with
  | none => some (ip, none)
  | some p1 => (py_int p1).map (fun port => (ip, some port))

/-- `dump_ip_port`: `str(ip) + ":" + str(port)`. -/
def dump_ip_port (ip_port : List Char × Option ℤ) : List Char :=
  ip_port.1 ++ ':' :: py_str_opt_int ip_port.2

/-- The address-field half of `dump_config`: a non-None address tuple is
replaced by its `dump_ip_port` string before the YAML dump. -/
def dump_config_address : Option (List Char × Option ℤ) → Option (List Char) :=
  Option.map dump_ip_port

/-- The address-field half of `check_config` (as run by `parse_config`
after the YAML load): a string field is replaced by `parse_ip_port` of
it; the outer Option models the ValueError aborting `parse_config`. -/
def check_config_address :
    Option (List Char) → Option (Option (List Char × Option ℤ))
  | none => some none
  | some s => (parse_ip_port s).map some

/-! ## C6: spatial kernel, `DataHandlerPressure.prepare_spatial`
(src/matsense/process/data_handler.py) -/

/-- `math.hypot`. -/
noncomputable def hypot (x y : ℝ) : ℝ := Real.sqrt (x ^ 2 + y ^ 2)

/-- The `idealFilterLP` window: 1 inside the cutoff, 0 outside. -/
noncomputable def idealFilterLP (D0 : ℝ) (distance : ℝ) : ℝ :=
  if distance ≤ D0 then 1 else 0

/-- The `butterworthLP` window: `1 / (1 + (d/D0)^(2*order))`. -/
noncomputable def butterworthLP (D0 : ℝ) (order : ℕ) (distance : ℝ) : ℝ :=
  1 / (1 + (distance / D0) ^ (2 * order))

/-- The `gaussianLP` window: `exp(-d^2 / (2*D0^2))`. -/
noncomputable def gaussianLP (D0 : ℝ) (distance : ℝ) : ℝ :=
  Real.exp (-distance ^ 2 / (2 * D0 ^ 2))

/-- The precomputed frequency-domain kernel `self.kernel_sf` of
`prepare_spatial`: rows up to `row_divide = R // 2` use
`hypot(i, j)`, later rows use `hypot(R - i, j)`. -/
noncomputable def kernel_sf (R : ℕ) (freq_window : ℝ → ℝ) (i j : ℕ) : ℝ :=
  if i ≤ R / 2 then freq_window (hypot (i : ℝ) (j : ℝ))
  else freq_window (hypot ((R - i : ℕ) : ℝ) (j : ℝ))

/-! ## C9: blob selection, `BlobParser.filter` / `BlobParser.special_check`
(src/matsense/process/blob_parser.py) -/

/-- The BlobParser state read and written by `filter`: the sensor shape,
the `special` switch, the per-frame blob count, the persistent `centers`
and `values` lists, and the persistent parse outputs. -/
structure BlobState where
  n0 : ℕ
  n1 : ℕ
  special : Bool
  blob_cnt : ℕ
  centers : List (ℚ × ℚ)
  values : List ℚ
  weighted_r : ℚ
  weighted_c : ℚ
  parsed_value : ℚ
  blob_idx : ℤ

/-- The fresh state built by `BlobParser.__init__`. -/
def blob_init (n0 n1 : ℕ) (special : Bool) : BlobState :=
  { n0 := n0, n1 := n1, special := special, blob_cnt := 0, centers := [],
    values := [], weighted_r := 0, weighted_c := 0, parsed_value := 0,
    blob_idx := -1 }

/-- The search loop of `special_check` over blobs `1 .. blob_cnt - 1`:
the first blob whose column reaches `0.93 * (n1 - 1)` is selected;
`none` models an IndexError on `centers`. -/
def special_check_loop (s : BlobState) (i : ℕ) : Option ℤ :=
  if _h : i < s.blob_cnt then
    match s.centers.get? i with
    | none => none
    | some ci =>
      if (0.93 : ℚ) * ((s.n1 : ℚ) - 1) ≤ ci.2 then some (i : ℤ)
      else special_check_loop s (i + 1)
  else some (-1)
  termination_by s.blob_cnt - i
  decreasing_by simp_wf; omega

/-- `BlobParser.special_check`: keep blob 0 unless its column is within
6% of the width, in which case search the remaining blobs for one whose
column is at least 93% of the width and report -1 when none is found. -/
def special_check (s : BlobState) : Option ℤ :=
  match s.centers.get? 0 with
  | none => none
  | some c0 =>
    if c0.2 ≤ (0.06 : ℚ) * ((s.n1 : ℚ) - 1) then
      if 2 ≤ s.blob_cnt then special_check_loop s 1 else some (-1)
    else some 0

/-- `BlobParser.filter`: choose a blob index (0, or via `special_check`,
or -1 when no blob was found this frame), update `parsed_value`,
`weighted_r`, `weighted_c` only when the index is non-negative, and
return `(weighted_r, weighted_c, parsed_value)`. -/
def blob_filter (s : BlobState) : Option (BlobState × (ℚ × ℚ × ℚ)) :=
  let idx0 : Option ℤ :=
    if 1 ≤ s.blob_cnt then
      (if s.special then special_check s else some 0)
    else some (-1)
  match idx0 with
  | none => none
  | some b =>
    if 0 ≤ b then
      match s.values.get? b.toNat, s.centers.get? b.toNat with
      | some v, some c =>
        let s1 := { s with blob_idx := b, parsed_value := v,
                           weighted_r := c.1, weighted_c := c.2 }
        some (s1, (s1.weighted_r, s1.weighted_c, s1.parsed_value))
      | _, _ => none
    else
      let s1 := { s with blob_idx := b, parsed_value := 0 }
      some (s1, (s1.weighted_r, s1.weighted_c, s1.parsed_value))

/-- The tail of `BlobParser.parse`: the triple returned by `filter` is
normalized to `[0, 1]` when `normalize` is set. -/
def parse_return (normalize : Bool) (n0 n1 : ℕ) (rcv : ℚ × ℚ × ℚ) :
    ℚ × ℚ × ℚ :=
  if normalize then
    (rcv.1 / ((n0 : ℚ) - 1), rcv.2.1 / ((n1 : ℚ) - 1), rcv.2.2)
  else rcv

/-! ## C10: expression evaluator, `NumericStringParser.evaluateStack`
and the operator/function tables of `NumericStringParser.__init__`
(src/matsense/tools.py).  The evaluation stack is a `List String` whose
head is the top of the Python list (its last element, popped first). -/

/-- The names in the `self.fn` dictionary. -/
def fn_names : List String :=
  ["sin", "cos", "tan", "exp", "abs", "trunc", "round", "sgn"]

/-- The transcendental entries of `self.fn` (math.sin etc.), kept
abstract over the rational value model; the algebraic entries
(`abs`, `trunc`, `round`, `sgn`) are concrete below. -/
structure FnTable where
  fsin : ℚ → ℚ
  fcos : ℚ → ℚ
  ftan : ℚ → ℚ
  fexp : ℚ → ℚ

/-- `lambda a: int(a)`: truncation toward zero. -/
def py_trunc (q : ℚ) : ℚ := ((Int.tdiv q.num (q.den : ℤ) : ℤ) : ℚ)

/-- Python `round`: round half to even. -/
def py_round (q : ℚ) : ℚ :=
  let f : ℤ := ⌊q⌋
  let r : ℚ := q - (f : ℚ)
  if r < 1 / 2 then (f : ℚ)
  else if 1 / 2 < r then (f : ℚ) + 1
  else if f % 2 = 0 then (f : ℚ) else (f : ℚ) + 1

/-- `lambda a: (a>0)-(a<0)`. -/
def py_sgn (q : ℚ) : ℚ :=
  (if 0 < q then 1 else 0) - (if q < 0 then 1 else 0)

/-- `self.fn[name](a)` for a name in the table. -/
def apply_fn (tbl : FnTable) (name : String) (a : ℚ) : ℚ :=
  if name = "sin" then tbl.fsin a
  else if name = "cos" then tbl.fcos a
  else if name = "tan" then tbl.ftan a
  else if name = "exp" then tbl.fexp a
  else if name = "abs" then |a|
  else if name = "trunc" then py_trunc a
  else if name = "round" then py_round a
  else py_sgn a

/-- Whether `sub` is a prefix of `s` (character lists). -/
def py_str_starts_with : List Char → List Char → Bool
  | [], _ => true
  | _ :: _, [] => false
  | a :: as, b :: bs => a = b && py_str_starts_with as bs

/-- Whether `sub` occurs contiguously in `s` (character lists). -/
def py_contains_sub (sub : List Char) : List Char → Bool
  | [] => sub.isEmpty
  | c :: rest => py_str_starts_with sub (c :: rest) || py_contains_sub sub rest

/-- Python's substring test `op in "+-*/^"` (the empty string is a
substring of everything). -/
def py_in_string (sub s : String) : Bool :=
  py_contains_sub sub.data s.data

/-- The key string of the `op in "+-*/^"` test. -/
def OPS_STRING : String := "+-*/^"

/-- `self.opn[op](a, b)`: `none` models the KeyError on a multi-character
substring of `"+-*/^"`, the ZeroDivisionError of `/`, and a power whose
float result has no rational value (a non-integer exponent, or a negative
power of zero). -/
def apply_op (op : String) (a b : ℚ) : Option ℚ :=
  if op = "+" then some (a + b)
  else if op = "-" then some (a - b)
  else if op = "*" then some (a * b)
  else if op = "/" then (if b = 0 then none else some (a / b))
  else if op = "^" then
    (if b.den = 1 then
      (if a = 0 ∧ b.num < 0 then none else some (a ^ b.num))
     else none)
  else none

/-- The float value of `math.pi`. -/
def math_pi : ℚ := 3.141592653589793

/-- The float value of `math.e`. -/
def math_e : ℚ := 2.718281828459045

/-- The exponent suffix of a float literal: optional sign then digits. -/
def py_float_exp : List Char → Option ℤ
  | '-' :: r => (py_digits r).map (fun n => -(n : ℤ))
  | '+' :: r => (py_digits r).map (fun n => (n : ℤ))
  | l => (py_digits l).map (fun n => (n : ℤ))

/-- An unsigned float literal: digits, an optional fractional part, an
optional exponent.  `none` models the ValueError of `float()`. -/
def py_float_unsigned (l : List Char) : Option ℚ :=
  let ip := l.takeWhile Char.isDigit
  let r1 := l.dropWhile Char.isDigit
  let fr : List Char × List Char :=
    match r1 with
    | '.' :: r => (r.takeWhile Char.isDigit, r.dropWhile Char.isDigit)
    | _ => ([], r1)
  if ip.isEmpty ∧ fr.1.isEmpty then none
  else
    let base : ℚ :=
      (digits_to_nat (ip.map (fun c => c.toNat - 48)) : ℚ) +
        (digits_to_nat (fr.1.map (fun c => c.toNat - 48)) : ℚ) /
          ((10 : ℚ) ^ fr.1.length)
    match fr.2 with
    | [] => some base
    | c :: r3 =>
      if c = 'e' ∨ c = 'E' then
        (py_float_exp r3).map (fun ex => base * (10 : ℚ) ^ ex)
      else none

/-- Python `float(string)` on the token shapes the grammar can push. -/
def py_float : List Char → Option ℚ
  | '-' :: r => (py_float_unsigned r).map Neg.neg
  | '+' :: r => py_float_unsigned r
  | l => py_float_unsigned l

/-- `NumericStringParser.evaluateStack`, fuelled: each Python recursion
pops at least one token, so `stack.length + 1` fuel always suffices;
running out of fuel or popping an empty stack gives `none` (IndexError).
Returns the value and the unconsumed remainder of the stack. -/
def evaluateStack (tbl : FnTable) : ℕ → List String → Option (ℚ × List String)
  | 0, _ => none
  | _, [] => none
  | fuel + 1, op :: s =>
    if op = "unary -" then
      (evaluateStack tbl fuel s).map (fun p => (-p.1, p.2))
    else if py_in_string op OPS_STRING then
      match evaluateStack tbl fuel s with
      | none => none
      | some (op2, s1) =>
        match evaluateStack tbl fuel s1 with
        | none => none
        | some (op1, s2) => (apply_op op op1 op2).map (fun v => (v, s2))
    else if op = "PI" then some (math_pi, s)
    else if op = "E" then some (math_e, s)
    else if op ∈ fn_names then
      (evaluateStack tbl fuel s).map (fun p => (apply_fn tbl op p.1, p.2))
    else if op.front.isAlpha then some (0, s)
    else (py_float op.data).map (fun v => (v, s))

/-- The tail of `NumericStringParser.eval`: the value of
`evaluateStack(self.exprStack[:])` (the leftover stack is dropped). -/
def NSP_eval (tbl : FnTable) (stack : List String) : Option ℚ :=
  (evaluateStack tbl (stack.length + 1) stack).map Prod.fst

/-- The `exprStack` pyparsing builds for the input `f(x)` with a single
numeric argument token: `pushFirst` pushes the argument, then the
function identifier; the identifier ends up on top. -/
def fn_call_stack (fnName arg : String) : List String := [fnName, arg]

/-! ## Theorems -/

/-- Claim C1: secure serial protocol decoding.  After a start byte 0x5B
the decoder maps the escape pairs 0x5C 0x00, 0x5C 0x01, 0x5C 0x02 to the
single bytes 0x5C, 0x5B, 0x5D; appends nothing for an escape pair with
any other second byte; on the end byte 0x5D it returns the decoded bytes
exactly when the decoded length equals the expected frame size (total +
12 with IMU, total without), and otherwise discards the frame and waits
for the next 0x5B; and `put_frame_secure` copies the first `total`
decoded bytes out. -/
theorem c1_secure_protocol_decoding (total : ℕ) (imu : Bool)
    (rest frame : List ℕ) :
    (frame_size total true = total + 12 ∧ frame_size total false = total) ∧
    (secure_decode (frame_size total imu) (ESCAPE :: ESCAPE_ESCAPE :: rest) true frame =
      secure_decode (frame_size total imu) rest true (frame ++ [ESCAPE])) ∧
    (secure_decode (frame_size total imu) (ESCAPE :: ESCAPE_HEAD :: rest) true frame =
      secure_decode (frame_size total imu) rest true (frame ++ [HEAD])) ∧
    (secure_decode (frame_size total imu) (ESCAPE :: ESCAPE_TAIL :: rest) true frame =
      secure_decode (frame_size total imu) rest true (frame ++ [TAIL])) ∧
    (∀ e, e ≠ ESCAPE_ESCAPE → e ≠ ESCAPE_HEAD → e ≠ ESCAPE_TAIL →
      secure_decode (frame_size total imu) (ESCAPE :: e :: rest) true frame =
        secure_decode (frame_size total imu) rest true frame) ∧
    (frame.length = frame_size total imu →
      secure_decode (frame_size total imu) (TAIL :: rest) true frame = some frame) ∧
    (frame.length ≠ frame_size total imu →
      secure_decode (frame_size total imu) (TAIL :: rest) true frame =
        secure_decode (frame_size total imu) rest false []) ∧
    (∀ b, b ≠ HEAD →
      secure_decode (frame_size total imu) (b :: rest) false frame =
        secure_decode (frame_size total imu) rest false frame) ∧
    (secure_decode (frame_size total imu) (HEAD :: rest) false frame =
      secure_decode (frame_size total imu) rest true frame) ∧
    (put_frame_secure total imu rest =
      (secure_decode (frame_size total imu) rest false []).map (List.take total)) := by
  refine ⟨⟨rfl, rfl⟩, ?_, ?_, ?_, ?_, ?_, ?_, ?_, ?_, rfl⟩
  · simp [secure_decode, ESCAPE, ESCAPE_ESCAPE]
  · simp [secure_decode, ESCAPE, ESCAPE_ESCAPE, ESCAPE_HEAD]
  · simp [secure_decode, ESCAPE, ESCAPE_ESCAPE, ESCAPE_HEAD, ESCAPE_TAIL]
  · intro e h0 h1 h2
    simp [secure_decode, ESCAPE, h0, h1, h2]
  · intro h
    rw [secure_decode.eq_def]
    simp [ESCAPE, TAIL, h]
  · intro h
    rw [secure_decode.eq_def]
    simp [ESCAPE, TAIL, h]
  · intro b hb
    rw [secure_decode.eq_def]
    simp [hb]
  · simp [secure_decode, HEAD]

/-- Witness for C1: a frame of the correct length is returned on the
end byte. -/
theorem c1_secure_protocol_decoding_witness :
    secure_decode (frame_size 3 false) (TAIL :: []) true [1, 2, 3] =
      some [1, 2, 3] :=
  (c1_secure_protocol_decoding 3 false [] [1, 2, 3]).2.2.2.2.2.1 (by decide)

/-- Claim C4 (code bug): after `Proc.run` handles a REC_DATA record
start, the source sets `record_raw` to `true` — although REC_DATA is not
REC_RAW — so `post_action` records lines from the raw buffer instead of
the processed output buffer. -/
theorem c4_rec_data_sets_record_raw :
    proc_record_raw_after FLAG_REC_DATA false = true ∧
    FLAG_REC_DATA ≠ FLAG_REC_RAW ∧
    post_action_buffer (proc_record_raw_after FLAG_REC_DATA false) =
      RecBuffer.data_raw := by
  decide

/-- Claim C5, counterexample: a request whose leading command byte is 8
(outside the defined command set) matches no dispatch branch, so zero
reply datagrams are sent, not one. -/
theorem c5_unknown_command_no_reply :
    (run_service_replies ⟨true, true, true⟩ 8).length ≠ 1 := by
  decide

/-- Claim C5, amended: for every request whose leading command byte is
one of the ten defined command codes, exactly one reply datagram is sent
before the next request is processed. -/
theorem c5_defined_command_one_reply (env : SvcEnv) (cmd : ℕ)
    (h : cmd ∈ defined_cmds) :
    (run_service_replies env cmd).length = 1 := by
  fin_cases h <;>
    simp [run_service_replies, CMD_CLOSE, CMD_DATA, CMD_RAW, CMD_REC_DATA,
      CMD_REC_RAW, CMD_REC_STOP, CMD_RESTART, CMD_CONFIG, CMD_DATA_IMU,
      CMD_RESTART_FILE]

/-- Witness for C5 (amended): the REC_DATA command gets exactly one
reply. -/
theorem c5_defined_command_one_reply_witness :
    (run_service_replies ⟨true, true, true⟩ 3).length = 1 :=
  c5_defined_command_one_reply ⟨true, true, true⟩ 3 (by decide)

/-- Claim C7 (code bug): with a temporal filter enabled and kernel size
L = 1, `prepare_temporal` consumes zero priming frames (`need_cache 1 =
0`), but `temporal_filter` is not the identity: storing the current
frame into the (L-1 = 0)-row ring buffer raises IndexError, for the
moving-average kernel and the windowed-sinc kernel alike. -/
theorem c7_temporal_size_one_raises {total : ℕ} (idx ridx : ℕ)
    (frame : Fin total → ℚ) (rframe : Fin total → ℝ) (w : ℝ) :
    need_cache 1 = 0 ∧
    temporal_filter TemporalKind.ma 1 (kernel_MA 1) [] idx frame = none ∧
    temporal_filter TemporalKind.rw 1 (kernel_RW 1 w) [] ridx rframe = none := by
  refine ⟨rfl, ?_, ?_⟩
  · simp [temporal_filter, kernel_MA, temporal_conv]
  · simp [temporal_filter, kernel_RW, rw_tap, temporal_conv, List.range_succ]

/-- Claim C8 (code bug): a 2-D frame whose shape equals the configured
target is not returned unchanged — `ratio == 1` compares a Python list
with an int and is always false, so `interpolate` resamples into its
output buffer. -/
theorem c8_interpolate_same_shape_resamples :
    interpolate (4, 4) 3 (4, 4) () = InterpResult.zoomed 3 ∧
    interpolate (4, 4) 3 (4, 4) () ≠ InterpResult.original () := by
  constructor <;> decide

/-- Claim C2: hot-frame freeze.  With calibration enabled
(`cali_frames > 0`) and a dynamic window (`W > 0`), a post-filter frame
with some cell more than `cali_threshold` above the stored zero leaves
`data_zero` unchanged. -/
theorem c2_hot_frame_freezes_data_zero {total : ℕ} (p : CaliParams)
    (s : CaliState total) (frame : Fin total → ℚ)
    (hcal : 0 < p.INIT_CALI_FRAMES) (hwin : 0 < p.WIN_SIZE)
    (hhot : ∃ i, frame i - s.data_zero i > p.CALI_THRESHOLD) :
    ∃ s1 out, calibrate p s frame = some (s1, out) ∧
      s1.data_zero = s.data_zero := by
  have h1 : ¬ p.INIT_CALI_FRAMES ≤ 0 := not_le.mpr hcal
  simp only [calibrate, h1, if_false, hwin, if_true, hhot]
  exact ⟨_, _, rfl, rfl⟩

/-- Witness for C2: a single-cell sensor whose frame exceeds the zero by
more than the threshold freezes the zero. -/
theorem c2_hot_frame_freezes_data_zero_witness :
    ∃ s1 out,
      calibrate ⟨200, 2, 5, 3⟩
        (⟨fun _ => 0, [fun _ => 0, fun _ => 0], 0, [], false⟩ : CaliState 1)
        (fun _ => 5) =
        some (s1, out) ∧
      s1.data_zero =
        (⟨fun _ => 0, [fun _ => 0, fun _ => 0], 0, [], false⟩ :
          CaliState 1).data_zero :=
  c2_hot_frame_freezes_data_zero ⟨200, 2, 5, 3⟩
    ⟨fun _ => 0, [fun _ => 0, fun _ => 0], 0, [], false⟩ (fun _ => 5)
    (by decide) (by decide) ⟨0, by norm_num⟩

/-- Claim C9: stale blob coordinates.  When `filter` selects no blob
(none was found this frame, or `special_check` rejects all of them), the
returned value component is 0 while the returned row and column are the
stored centroid of the most recent selecting call, which the call leaves
unchanged; a fresh parser stores (0, 0). -/
theorem c9_no_blob_keeps_stale_centroid (s : BlobState)
    (h : s.blob_cnt = 0 ∨ (s.special = true ∧ special_check s = some (-1))) :
    ∃ s1, blob_filter s = some (s1, (s.weighted_r, s.weighted_c, 0)) ∧
      s1.weighted_r = s.weighted_r ∧ s1.weighted_c = s.weighted_c ∧
      s1.parsed_value = 0 ∧
      (blob_init s.n0 s.n1 s.special).weighted_r = 0 ∧
      (blob_init s.n0 s.n1 s.special).weighted_c = 0 := by
  rcases h with h | ⟨hs, hchk⟩
  · refine ⟨{ s with blob_idx := -1, parsed_value := 0 }, ?_, rfl, rfl, rfl, rfl, rfl⟩
    simp [blob_filter, h]
  · by_cases hc : 1 ≤ s.blob_cnt
    · refine ⟨{ s with blob_idx := -1, parsed_value := 0 }, ?_, rfl, rfl, rfl, rfl, rfl⟩
      simp [blob_filter, hc, hs, hchk]
    · refine ⟨{ s with blob_idx := -1, parsed_value := 0 }, ?_, rfl, rfl, rfl, rfl, rfl⟩
      simp [blob_filter, hc]

/-- Witness for C9: a fresh parser that found no blob returns (0, 0, 0)
and keeps its stored centroid. -/
theorem c9_no_blob_keeps_stale_centroid_witness :
    ∃ s1, blob_filter (blob_init 5 5 false) =
        some (s1, ((blob_init 5 5 false).weighted_r,
                   (blob_init 5 5 false).weighted_c, 0)) ∧
      s1.weighted_r = (blob_init 5 5 false).weighted_r ∧
      s1.weighted_c = (blob_init 5 5 false).weighted_c ∧
      s1.parsed_value = 0 ∧
      (blob_init (blob_init 5 5 false).n0 (blob_init 5 5 false).n1
        (blob_init 5 5 false).special).weighted_r = 0 ∧
      (blob_init (blob_init 5 5 false).n0 (blob_init 5 5 false).n1
        (blob_init 5 5 false).special).weighted_c = 0 :=
  c9_no_blob_keeps_stale_centroid (blob_init 5 5 false) (Or.inl rfl)

/-- The row distance used by `prepare_spatial` is invariant under the
DFT row reflection `i ↦ (R - i) % R`. -/
theorem row_dist_reflect (R i : ℕ) (hi : i < R) :
    (if i ≤ R / 2 then i else R - i) =
      (if (R - i) % R ≤ R / 2 then (R - i) % R else R - (R - i) % R) := by
  rcases Nat.eq_zero_or_pos i with h0 | hpos
  · subst h0
    simp [Nat.mod_self]
  · have hm : (R - i) % R = R - i := Nat.mod_eq_of_lt (by omega)
    rw [hm]
    split <;> split <;> omega

/-- `kernel_sf` as the window applied to the folded row distance. -/
theorem kernel_sf_eq_window (R : ℕ) (w : ℝ → ℝ) (i j : ℕ) :
    kernel_sf R w i j =
      w (hypot (((if i ≤ R / 2 then i else R - i) : ℕ) : ℝ) (j : ℝ)) := by
  unfold kernel_sf
  by_cases h : i ≤ R / 2
  · rw [if_pos h, if_pos h]
  · rw [if_neg h, if_neg h]

/-- Claim C6: spatial kernel symmetry.  For every sensor shape, every
window type (ideal, butterworth, gaussian) and every cutoff, the
precomputed frequency-domain kernel satisfies
`kernel[i, j] = kernel[(R - i) % R, j]` on its index range. -/
theorem c6_kernel_sf_symmetric (R C : ℕ) (D0 : ℝ) (order : ℕ) (w : ℝ → ℝ)
    (hw : w = idealFilterLP D0 ∨ w = butterworthLP D0 order ∨ w = gaussianLP D0)
    (i j : ℕ) (hi : i < R) (hj : j < C / 2 + 1) :
    kernel_sf R w i j = kernel_sf R w ((R - i) % R) j := by
  rw [kernel_sf_eq_window, kernel_sf_eq_window, ← row_dist_reflect R i hi]

/-- Witness for C6: a 3-row gaussian kernel is symmetric at row 2. -/
theorem c6_kernel_sf_symmetric_witness :
    kernel_sf 3 (gaussianLP 1) 2 1 = kernel_sf 3 (gaussianLP 1) ((3 - 2) % 3) 1 :=
  c6_kernel_sf_symmetric 3 3 1 0 (gaussianLP 1) (Or.inr (Or.inr rfl)) 2 1
    (by decide) (by decide)

/-- Claim C10: an expression applying a function identifier outside the
supported table to a parseable numeric argument evaluates to 0 (no error
is raised): `evaluateStack` pops the identifier, falls through every
table lookup to the `op[0].isalpha()` branch, and returns 0 without
consuming the argument. -/
theorem c10_unknown_function_yields_zero (tbl : FnTable) (f a : String)
    (v : ℚ)
    (h1 : f ≠ "unary -")
    (h2 : py_in_string f OPS_STRING = false)
    (h3 : f ≠ "PI") (h4 : f ≠ "E")
    (h5 : f ∉ fn_names)
    (h6 : f.front.isAlpha = true)
    (h7 : py_float a.data = some v) :
    NSP_eval tbl (fn_call_stack f a) = some 0 := by
  have hstep : NSP_eval tbl (fn_call_stack f a) =
      (evaluateStack tbl (2 + 1) [f, a]).map Prod.fst := rfl
  rw [hstep, evaluateStack]
  simp [h1, h2, h3, h4, h5, h6]

/-- Witness for C10: `log(2)` evaluates to 0. -/
theorem c10_unknown_function_yields_zero_witness :
    py_float "2".data = some 2 ∧
    NSP_eval ⟨id, id, id, id⟩ (fn_call_stack "log" "2") = some 0 := by
  have h2 : py_float "2".data =
      some (((2 : ℕ) : ℚ) + ((0 : ℕ) : ℚ) / (10 : ℚ) ^ (0 : ℕ)) := rfl
  constructor
  · rw [h2]
    norm_num
  · exact c10_unknown_function_yields_zero ⟨id, id, id, id⟩ "log" "2" _
      (by decide) (by decide) (by decide) (by decide) (by decide) (by decide)
      h2

/-- Every decimal digit produced by `nat_to_digits` is below 10. -/
theorem nat_to_digits_lt10 (n : ℕ) : ∀ d ∈ nat_to_digits n, d < 10 := by
  induction n using Nat.strong_induction_on with
  | _ n ih =>
    rw [nat_to_digits.eq_def]
    split
    · next h =>
      intro d hd
      simp only [List.mem_singleton] at hd
      omega
    · next h =>
      intro d hd
      rw [List.mem_append] at hd
      rcases hd with h1 | h1
      · exact ih _ (Nat.div_lt_self (by omega) (by omega)) d h1
      · simp only [List.mem_singleton] at h1
        omega

/-- `nat_to_digits` never returns the empty list. -/
theorem nat_to_digits_ne_nil (n : ℕ) : nat_to_digits n ≠ [] := by
  rw [nat_to_digits.eq_def]
  split <;> simp

/-- Appending one digit multiplies the value by 10 and adds the digit. -/
theorem digits_to_nat_append (l : List ℕ) (d : ℕ) :
    digits_to_nat (l ++ [d]) = digits_to_nat l * 10 + d := by
  simp [digits_to_nat, List.foldl_append]

/-- Printing then reading decimal digits is the identity. -/
theorem digits_to_nat_nat_to_digits (n : ℕ) :
    digits_to_nat (nat_to_digits n) = n := by
  induction n using Nat.strong_induction_on with
  | _ n ih =>
    rw [nat_to_digits.eq_def]
    split
    · next h => simp [digits_to_nat]
    · next h =>
      rw [digits_to_nat_append, ih _ (Nat.div_lt_self (by omega) (by omega))]
      omega

/-- Character facts about decimal digits: a digit character is a digit,
decodes back to its value, and is none of `:`, `-`, `+`. -/
theorem digit_char_facts : ∀ d < 10,
    (digit_char d).isDigit = true ∧ (digit_char d).toNat - 48 = d ∧
    digit_char d ≠ ':' ∧ digit_char d ≠ '-' ∧ digit_char d ≠ '+' := by
  decide

/-- `int` reads back the digit string printed for a natural number. -/
theorem py_digits_py_str_nat (n : ℕ) : py_digits (py_str_nat n) = some n := by
  unfold py_digits py_str_nat
  have hne : (nat_to_digits n).map digit_char ≠ [] := by
    simp [nat_to_digits_ne_nil n]
  have hall : ((nat_to_digits n).map digit_char).all Char.isDigit = true := by
    rw [List.all_eq_true]
    intro c hc
    rw [List.mem_map] at hc
    obtain ⟨d, hd, rfl⟩ := hc
    exact (digit_char_facts d (nat_to_digits_lt10 n d hd)).1
  rw [if_pos ⟨hne, hall⟩, List.map_map]
  have hid : (nat_to_digits n).map ((fun c => c.toNat - 48) ∘ digit_char) =
      (nat_to_digits n).map id := by
    apply List.map_congr_left
    intro d hd
    exact (digit_char_facts d (nat_to_digits_lt10 n d hd)).2.1
  rw [hid, List.map_id, digits_to_nat_nat_to_digits]

/-- The printed form of a natural number starts with a digit character. -/
theorem py_str_nat_head (n : ℕ) :
    ∃ d rest, py_str_nat n = digit_char d :: rest ∧ d < 10 := by
  obtain ⟨d, tl, hcons⟩ := List.exists_cons_of_ne_nil (nat_to_digits_ne_nil n)
  refine ⟨d, tl.map digit_char, ?_, ?_⟩
  · rw [py_str_nat, hcons, List.map_cons]
  · exact nat_to_digits_lt10 n d (by rw [hcons]; exact List.mem_cons_self d tl)

/-- `int(str(n))` is `n` for every integer. -/
theorem py_int_py_str_int (n : ℤ) : py_int (py_str_int n) = some n := by
  unfold py_str_int
  split
  · next hneg =>
    unfold py_int
    simp only [List.headD_cons, List.tail_cons, if_pos rfl]
    rw [py_digits_py_str_nat]
    show some (-(n.natAbs : ℤ)) = some n
    congr 1
    omega
  · next hpos =>
    obtain ⟨d, rest, heq, hd10⟩ := py_str_nat_head n.toNat
    have hfacts := digit_char_facts d hd10
    rw [heq]
    unfold py_int
    rw [if_neg (by simpa using hfacts.2.2.2.1),
        if_neg (by simpa using hfacts.2.2.2.2),
        ← heq, py_digits_py_str_nat]
    show some ((n.toNat : ℤ)) = some n
    congr 1
    omega

/-- The printed form of an integer contains no colon. -/
theorem colon_not_mem_py_str_int (n : ℤ) : ':' ∉ py_str_int n := by
  have key : ∀ m : ℕ, ':' ∉ py_str_nat m := by
    intro m hmem
    rw [py_str_nat, List.mem_map] at hmem
    obtain ⟨d, hd, hcd⟩ := hmem
    exact (digit_char_facts d (nat_to_digits_lt10 m d hd)).2.2.1 hcd
  unfold py_str_int
  split
  · intro hmem
    rcases List.mem_cons.mp hmem with h | h
    · exact absurd h.symm (by decide)
    · exact key _ h
  · exact key _

/-- `split(":")` peels off a colon-free prefix. -/
theorem split_colon_append (a b : List Char) (ha : ':' ∉ a) :
    split_colon (a ++ ':' :: b) = a :: split_colon b := by
  induction a with
  | nil => simp [split_colon]
  | cons c cs ih =>
    have hc : ¬ c = ':' := fun h => ha (by simp [h])
    have ha2 : ':' ∉ cs := fun h => ha (List.mem_cons_of_mem _ h)
    rw [List.cons_append, split_colon, if_neg hc, ih ha2]

/-- `split(":")` of a colon-free string is that string alone. -/
theorem split_colon_of_not_mem (b : List Char) (hb : ':' ∉ b) :
    split_colon b = [b] := by
  induction b with
  | nil => rfl
  | cons c cs ih =>
    have hc : ¬ c = ':' := fun h => hb (by simp [h])
    have hb2 : ':' ∉ cs := fun h => hb (List.mem_cons_of_mem _ h)
    rw [split_colon, if_neg hc, ih hb2]

/-- Claim C3, counterexample: a validated configuration whose
server_address has a null port does not survive the round trip —
`dump_ip_port` prints `host:None` and `parse_config` then raises
ValueError in `int("None")`. -/
theorem c3_null_port_roundtrip_fails :
    check_config_address (dump_config_address (some ("localhost".data, none))) ≠
      some (some ("localhost".data, none)) ∧
    check_config_address (dump_config_address (some ("localhost".data, none))) =
      none := by
  constructor <;> decide

/-- Claim C3, amended: the round trip holds for every validated
configuration whose server_address and client_address ports are non-null
integers: on such address fields, `check_config` after `dump_config`
reproduces the parsed `(host, port)` pair exactly. -/
theorem c3_roundtrip_with_integer_port (ip : List Char) (port : ℤ)
    (hip : ':' ∉ ip) :
    parse_ip_port (dump_ip_port (ip, some port)) = some (ip, some port) ∧
    check_config_address (dump_config_address (some (ip, some port))) =
      some (some (ip, some port)) := by
  have hparse : parse_ip_port (dump_ip_port (ip, some port)) =
      some (ip, some port) := by
    unfold dump_ip_port py_str_opt_int parse_ip_port
    rw [split_colon_append ip _ hip,
        split_colon_of_not_mem _ (colon_not_mem_py_str_int port)]
    simp [py_int_py_str_int]
  exact ⟨hparse, by simp [check_config_address, dump_config_address, hparse]⟩

/-- Witness for C3 (amended): a concrete host and port round trip. -/
theorem c3_roundtrip_with_integer_port_witness :
    parse_ip_port (dump_ip_port ("192.168.1.1".data, some 25530)) =
      some ("192.168.1.1".data, some 25530) ∧
    check_config_address
        (dump_config_address (some ("192.168.1.1".data, some 25530))) =
      some (some ("192.168.1.1".data, some 25530)) :=
  c3_roundtrip_with_integer_port "192.168.1.1".data 25530 (by decide)

end MatSense
